import Mathlib

/-!
Shallow embedding of the `athere` edge-function repository.

The repository has four source files:
* `worker.js` — a combined Cloudflare Worker whose default-export `fetch`
  routes `OPTIONS` (any path), `POST /api/claude`, `GET /proxy?url=...`,
  and a static-asset fallthrough;
* `functions/api/claude.js` (src/unnamed/part_000) — Pages Function
  `onRequestPost` / `onRequestOptions` for the AI proxy;
* `functions/proxy.js` — Pages Function `onRequestGet` / `onRequestOptions`
  for the CORS proxy;
* `sw.js` — a client-side service worker with install / fetch listeners.

Handlers are embedded as pure functions.  The single outbound `fetch` a
handler may perform is abstracted by a `FetchResult` oracle (success with
status/body/headers, or a thrown exception with a message); each handler
returns the `Response` it sends to the caller together with the list of
outbound requests it issued, so that "no outbound fetch occurs" and
"the outbound request carries header H" are directly statable.
JavaScript `Headers` objects are modelled as association lists with
case-insensitive names; JS falsiness of `null`/`undefined`/`""` strings is
modelled by `Option.getD ""` followed by comparison with `""`.
-/

namespace AtHere

/-- Header lists model the JS `Headers` class: name/value pairs with
case-insensitive names. -/
abbrev Headers := List (String × String)

/-- Case-normalisation used for header-name comparison (JS header names are
case-insensitive); ASCII lowercasing, character by character. -/
def hnorm (s : String) : String := String.mk (s.data.map Char.toLower)

/-- `headers.get(k)`: first pair whose name matches `k` case-insensitively. -/
def hget (hs : Headers) (k : String) : Option String :=
  (hs.find? (fun p => hnorm p.1 == hnorm k)).map Prod.snd

/-- `headers.delete(k)`: drop every pair whose name matches `k`. -/
def hdelete (hs : Headers) (k : String) : Headers :=
  hs.filter (fun p => hnorm p.1 != hnorm k)

/-- `headers.set(k, v)`: replace any pair named `k` by the single pair
`(k, v)`. -/
def hset (hs : Headers) (k v : String) : Headers :=
  hdelete hs k ++ [(k, v)]

/-- Apply `headers.set` for each pair of `kvs` in order (the
`for ... of Object.entries(...)` loop in `corsResponse`). -/
def setAll (hs : Headers) (kvs : Headers) : Headers :=
  kvs.foldl (fun acc kv => hset acc kv.1 kv.2) hs

/-- An HTTP response: status, body (bytes modelled as a string), headers. -/
structure Response where
  status : Nat
  body : String
  headers : Headers
deriving DecidableEq, Repr

/-- Outcome of the one outbound `fetch` a handler may attempt: either a
response from the network or a thrown exception carrying `err.message`. -/
inductive FetchResult where
  | ok (status : Nat) (body : String) (headers : Headers)
  | err (msg : String)
deriving DecidableEq, Repr

/-- A record of an outbound request issued by a handler. -/
structure OutboundRequest where
  url : String
  method : String
  headers : Headers
  body : String
deriving DecidableEq, Repr

/-- An inbound HTTP request as the handlers observe it: method,
`url.pathname`, `url.searchParams.get('url')` (`none` models JS `null`),
and the text body. -/
structure Request where
  method : String
  path : String
  urlParam : Option String
  body : String
deriving DecidableEq, Repr

/-- The worker environment: the `ANTHROPIC_API_KEY` secret (absent or a
string) and the optional `ASSETS` binding, abstracted as the response the
assets fetch would produce. -/
structure Env where
  ANTHROPIC_API_KEY : Option String
  ASSETS : Option Response
deriving DecidableEq, Repr

/-- `CORS_HEADERS` constant of `worker.js`. -/
def CORS_HEADERS : Headers :=
  [("Access-Control-Allow-Origin", "*"),
   ("Access-Control-Allow-Methods", "GET, POST, OPTIONS"),
   ("Access-Control-Allow-Headers", "Content-Type, Authorization"),
   ("Access-Control-Max-Age", "86400")]

/-- `corsResponse(body, init)` of `worker.js`: start from `init.headers`
and `set` every pair of `CORS_HEADERS` over it. -/
def corsResponse (body : String) (status : Nat) (initHeaders : Headers) : Response :=
  { status := status, body := body, headers := setAll initHeaders CORS_HEADERS }

/-- JSON string escaping as performed by `JSON.stringify` on the common
escapes (quote, backslash, newline, carriage return, tab). -/
def jsonEscapeChar (c : Char) : String :=
  if c = '"' then "\\\""
  else if c = '\\' then "\\\\"
  else if c = '\n' then "\\n"
  else if c = '\r' then "\\r"
  else if c = '\t' then "\\t"
  else String.singleton c

/-- `JSON.stringify` of a string value. -/
def jsonQuote (s : String) : String :=
  "\"" ++ String.join (s.data.map jsonEscapeChar) ++ "\""

/-- `JSON.stringify({ error: msg })`. -/
def jsonErrorBody (msg : String) : String :=
  "\x7b\"error\":" ++ (jsonQuote msg ++ "\x7d")

/-- The outbound request `worker.js` / `claude.js` send to
`https://api.anthropic.com/v1/messages`. -/
def anthropicOutbound (apiKey body : String) : OutboundRequest :=
  { url := "https://api.anthropic.com/v1/messages"
    method := "POST"
    headers := [("Content-Type", "application/json"),
                ("x-api-key", apiKey),
                ("anthropic-version", "2023-06-01")]
    body := body }

/-- The outbound request the `/proxy` handlers send to the target URL. -/
def proxyOutbound (target : String) : OutboundRequest :=
  { url := target
    method := "GET"
    headers := [("User-Agent", "Mozilla/5.0 (compatible; AtHereBot/1.0)"),
                ("Accept", "text/html,application/xhtml+xml,application/xml;q=0.9,*/*;q=0.8"),
                ("Accept-Language", "en-AU,en;q=0.9")]
    body := "" }

/-- The `fetch(request, env)` default export of `worker.js`.  Returns the
response sent to the caller and the list of outbound requests issued.
`oracle` is the outcome of the (at most one) outbound fetch. -/
def workerFetch (env : Env) (req : Request) (oracle : FetchResult) :
    Response × List OutboundRequest :=
  if req.method = "OPTIONS" then
    (corsResponse "" 204 [], [])
  else if req.path = "/api/claude" ∧ req.method = "POST" then
    let apiKey := env.ANTHROPIC_API_KEY.getD ""
    if apiKey = "" then
      (corsResponse (jsonErrorBody "ANTHROPIC_API_KEY not configured") 500
        [("Content-Type", "application/json")], [])
    else
      match oracle with
      | .ok status body _ =>
          (corsResponse body status [("Content-Type", "application/json")],
           [anthropicOutbound apiKey req.body])
      | .err msg =>
          (corsResponse (jsonErrorBody msg) 502 [("Content-Type", "application/json")],
           [anthropicOutbound apiKey req.body])
  else if req.path = "/proxy" then
    let targetUrl := req.urlParam.getD ""
    if targetUrl = "" then
      (corsResponse "Missing url parameter" 400 [], [])
    else
      match oracle with
      | .ok status body hs =>
          (corsResponse body status
            (hdelete (hdelete hs "Content-Security-Policy") "X-Frame-Options"),
           [proxyOutbound targetUrl])
      | .err msg =>
          (corsResponse ("Proxy error: " ++ msg) 502 [], [proxyOutbound targetUrl])
  else
    match env.ASSETS with
    | some resp => (resp, [])
    | none => ({ status := 404, body := "Not found", headers := [] }, [])

/-- `onRequestPost` of `functions/api/claude.js` (Pages variant). -/
def claudeOnRequestPost (env : Env) (req : Request) (oracle : FetchResult) :
    Response × List OutboundRequest :=
  let apiKey := env.ANTHROPIC_API_KEY.getD ""
  if apiKey = "" then
    ({ status := 500
       body := jsonErrorBody
         "ANTHROPIC_API_KEY not configured. Add it in Cloudflare Pages > Settings > Environment variables."
       headers := [("Content-Type", "application/json"),
                   ("Access-Control-Allow-Origin", "*")] }, [])
  else
    match oracle with
    | .ok status body _ =>
        ({ status := status, body := body
           headers := [("Content-Type", "application/json"),
                       ("Access-Control-Allow-Origin", "*")] },
         [anthropicOutbound apiKey req.body])
    | .err msg =>
        ({ status := 502, body := jsonErrorBody msg
           headers := [("Content-Type", "application/json"),
                       ("Access-Control-Allow-Origin", "*")] },
         [anthropicOutbound apiKey req.body])

/-- `onRequestOptions` of `functions/api/claude.js`. -/
def claudeOnRequestOptionsResp : Response :=
  { status := 204, body := ""
    headers := [("Access-Control-Allow-Origin", "*"),
                ("Access-Control-Allow-Methods", "POST, OPTIONS"),
                ("Access-Control-Allow-Headers", "Content-Type"),
                ("Access-Control-Max-Age", "86400")] }

/-- `onRequestGet` of `functions/proxy.js` (Pages variant). -/
def proxyOnRequestGet (req : Request) (oracle : FetchResult) :
    Response × List OutboundRequest :=
  let targetUrl := req.urlParam.getD ""
  if targetUrl = "" then
    ({ status := 400, body := "Missing url parameter"
       headers := [("Access-Control-Allow-Origin", "*")] }, [])
  else
    match oracle with
    | .ok status body hs =>
        ({ status := status, body := body
           headers := hdelete (hdelete (hset hs "Access-Control-Allow-Origin" "*")
             "Content-Security-Policy") "X-Frame-Options" },
         [proxyOutbound targetUrl])
    | .err msg =>
        ({ status := 502, body := "Proxy error: " ++ msg
           headers := [("Access-Control-Allow-Origin", "*")] },
         [proxyOutbound targetUrl])

/-- `onRequestOptions` of `functions/proxy.js`. -/
def proxyOnRequestOptionsResp : Response :=
  { status := 204, body := ""
    headers := [("Access-Control-Allow-Origin", "*"),
                ("Access-Control-Allow-Methods", "GET, OPTIONS"),
                ("Access-Control-Allow-Headers", "Content-Type"),
                ("Access-Control-Max-Age", "86400")] }

end AtHere

namespace AtHere.SW

/-- A request as the service-worker fetch listener observes it: method and
the parsed `new URL(e.request.url)` components. -/
structure SWRequest where
  method : String
  url : String
  pathname : String
  hostname : String
  origin : String
deriving DecidableEq, Repr

/-- `self.location` of the service worker. -/
structure SWConfig where
  hostname : String
  origin : String
deriving DecidableEq, Repr

/-- `caches.match`: look a request URL up in the cache bucket. -/
def lookupCache (cache : List (String × Response)) (url : String) : Option Response :=
  (cache.find? (fun e => e.1 == url)).map Prod.snd

/-- The early-return guard of the `sw.js` fetch listener: API calls, proxy
requests, cross-origin requests, and non-GET requests are left to the
browser. -/
def passBack (req : SWRequest) (cfg : SWConfig) : Bool :=
  req.pathname.startsWith "/api/" || req.pathname == "/proxy" ||
    req.hostname != cfg.hostname || req.method != "GET"

/-- Observable outcome of one fetch-event interception: whether the worker
called `respondWith`, the response it resolved to (if any), whether a
network request was issued, and the cache writes performed. -/
structure SWOutcome where
  intercepted : Bool
  response : Option Response
  networkRequested : Bool
  cacheWrites : List (String × Response)
deriving DecidableEq, Repr

/-- `res.ok` of the Fetch API: status in the range 200–299. -/
def statusOk (s : Nat) : Bool := 200 ≤ s && s < 300

/-- The `fetch` event listener of `sw.js`.  `net` is the outcome the network
fetch would have (used only on a cache miss). -/
def swFetch (cfg : SWConfig) (cache : List (String × Response)) (req : SWRequest)
    (net : FetchResult) : SWOutcome :=
  if passBack req cfg then
    { intercepted := false, response := none, networkRequested := false, cacheWrites := [] }
  else
    match lookupCache cache req.url with
    | some r =>
        { intercepted := true, response := some r, networkRequested := false, cacheWrites := [] }
    | none =>
        match net with
        | .ok status body hs =>
            let res : Response := { status := status, body := body, headers := hs }
            if statusOk status && (req.origin == cfg.origin) then
              { intercepted := true, response := some res, networkRequested := true
                cacheWrites := [(req.url, res)] }
            else
              { intercepted := true, response := some res, networkRequested := true
                cacheWrites := [] }
        | .err _ =>
            { intercepted := true, response := lookupCache cache "/", networkRequested := true
              cacheWrites := [] }

/-- The `install` event listener of `sw.js`: `cache.addAll(['/'])`, which
stores the fetched root document only when the fetch succeeds with an ok
status (`addAll` rejects otherwise, and the rejection is swallowed by the
`.catch`).  Returns the cache writes performed. -/
def swInstall (rootFetch : FetchResult) : List (String × Response) :=
  match rootFetch with
  | .ok status body hs => if statusOk status then [("/", { status := status, body := body, headers := hs })] else []
  | .err _ => []

end AtHere.SW

namespace AtHere

/-! ### Header-lookup lemmas -/

theorem find?_hdelete_self (hs : Headers) (k : String) :
    (hdelete hs k).find? (fun p => hnorm p.1 == hnorm k) = none := by
  induction hs with
  | nil => rfl
  | cons a t ih =>
    simp only [hdelete, List.filter_cons]
    by_cases ha : hnorm a.1 = hnorm k
    · rw [if_neg (by simp [ha])]
      exact ih
    · rw [if_pos (by simp [ha])]
      rw [List.find?_cons_of_neg _ (by simp [ha])]
      exact ih

theorem find?_hdelete_ne (hs : Headers) (k kq : String) (h : hnorm kq ≠ hnorm k) :
    (hdelete hs k).find? (fun p => hnorm p.1 == hnorm kq) =
      hs.find? (fun p => hnorm p.1 == hnorm kq) := by
  induction hs with
  | nil => rfl
  | cons a t ih =>
    simp only [hdelete, List.filter_cons]
    by_cases ha : hnorm a.1 = hnorm k
    · have haq : hnorm a.1 ≠ hnorm kq := by rw [ha]; exact Ne.symm h
      rw [if_neg (by simp [ha])]
      rw [List.find?_cons_of_neg _ (by simp [haq])]
      exact ih
    · by_cases haq : hnorm a.1 = hnorm kq
      · rw [if_pos (by simp [ha])]
        rw [List.find?_cons_of_pos _ (by simp [haq]),
          List.find?_cons_of_pos _ (by simp [haq])]
      · rw [if_pos (by simp [ha])]
        rw [List.find?_cons_of_neg _ (by simp [haq]),
          List.find?_cons_of_neg _ (by simp [haq])]
        exact ih

theorem hget_hdelete_self (hs : Headers) (k : String) : hget (hdelete hs k) k = none := by
  simp [hget, find?_hdelete_self]

theorem hget_hdelete_ne (hs : Headers) (k kq : String) (h : hnorm kq ≠ hnorm k) :
    hget (hdelete hs k) kq = hget hs kq := by
  simp [hget, find?_hdelete_ne hs k kq h]

theorem hget_hset_self (hs : Headers) (k v : String) : hget (hset hs k v) k = some v := by
  simp [hget, hset, List.find?_append, find?_hdelete_self]

theorem hget_hset_ne (hs : Headers) (k v kq : String) (h : hnorm kq ≠ hnorm k) :
    hget (hset hs k v) kq = hget hs kq := by
  have hne : (hnorm k == hnorm kq) = false := by
    simp only [beq_eq_false_iff_ne, ne_eq]
    exact Ne.symm h
  simp [hget, hset, List.find?_append, find?_hdelete_ne hs k kq h, List.find?, hne]

theorem setAll_cors (hs : Headers) :
    setAll hs CORS_HEADERS =
      hset (hset (hset (hset hs "Access-Control-Allow-Origin" "*")
          "Access-Control-Allow-Methods" "GET, POST, OPTIONS")
        "Access-Control-Allow-Headers" "Content-Type, Authorization")
        "Access-Control-Max-Age" "86400" := rfl

theorem hget_cors_acao (hs : Headers) :
    hget (setAll hs CORS_HEADERS) "Access-Control-Allow-Origin" = some "*" := by
  rw [setAll_cors, hget_hset_ne _ _ _ _ (by decide), hget_hset_ne _ _ _ _ (by decide),
    hget_hset_ne _ _ _ _ (by decide), hget_hset_self]

theorem hget_cors_methods (hs : Headers) :
    hget (setAll hs CORS_HEADERS) "Access-Control-Allow-Methods" =
      some "GET, POST, OPTIONS" := by
  rw [setAll_cors, hget_hset_ne _ _ _ _ (by decide), hget_hset_ne _ _ _ _ (by decide),
    hget_hset_self]

theorem hget_cors_other (hs : Headers) (k : String)
    (h1 : hnorm k ≠ hnorm "Access-Control-Allow-Origin")
    (h2 : hnorm k ≠ hnorm "Access-Control-Allow-Methods")
    (h3 : hnorm k ≠ hnorm "Access-Control-Allow-Headers")
    (h4 : hnorm k ≠ hnorm "Access-Control-Max-Age") :
    hget (setAll hs CORS_HEADERS) k = hget hs k := by
  rw [setAll_cors, hget_hset_ne _ _ _ _ h4, hget_hset_ne _ _ _ _ h3,
    hget_hset_ne _ _ _ _ h2, hget_hset_ne _ _ _ _ h1]

/-! ### Claim theorems -/

/-- C2: for every request to `/api/claude` when no credential is configured
(the `ANTHROPIC_API_KEY` binding is absent or empty, the JS-falsy cases of
`!apiKey`), both the combined worker and the Pages function return status
exactly 500 with a JSON body carrying an `error` field, and issue no
outbound request to the upstream. -/
theorem claude_missing_key_500_no_upstream (env : Env) (req : Request)
    (oracle : FetchResult) (hkey : env.ANTHROPIC_API_KEY.getD "" = "")
    (hpath : req.path = "/api/claude") (hmeth : req.method = "POST") :
    ((workerFetch env req oracle).1.status = 500 ∧
      (∃ t, (workerFetch env req oracle).1.body = "\x7b\"error\":" ++ t) ∧
      (workerFetch env req oracle).2 = []) ∧
    ((claudeOnRequestPost env req oracle).1.status = 500 ∧
      (∃ t, (claudeOnRequestPost env req oracle).1.body = "\x7b\"error\":" ++ t) ∧
      (claudeOnRequestPost env req oracle).2 = []) := by
  have hw : workerFetch env req oracle =
      (corsResponse (jsonErrorBody "ANTHROPIC_API_KEY not configured") 500
        [("Content-Type", "application/json")], []) := by
    simp [workerFetch, hpath, hmeth, hkey]
  have hc : claudeOnRequestPost env req oracle =
      ({ status := 500
         body := jsonErrorBody
           "ANTHROPIC_API_KEY not configured. Add it in Cloudflare Pages > Settings > Environment variables."
         headers := [("Content-Type", "application/json"),
                     ("Access-Control-Allow-Origin", "*")] }, []) := by
    simp [claudeOnRequestPost, hkey]
  rw [hw, hc]
  exact ⟨⟨rfl, ⟨_, rfl⟩, rfl⟩, ⟨rfl, ⟨_, rfl⟩, rfl⟩⟩

/-- Closed witness for C2 at a concrete request with no configured key. -/
theorem claude_missing_key_500_no_upstream_witness :
    ((none : Option String).getD "" = "" ∧
      ("/api/claude" : String) = "/api/claude" ∧ ("POST" : String) = "POST") ∧
    ((workerFetch ⟨none, none⟩ ⟨"POST", "/api/claude", none, "\x7b\"model\":\"x\"\x7d"⟩
        (.ok 200 "ignored" [])).1.status = 500 ∧
      (∃ t, (workerFetch ⟨none, none⟩ ⟨"POST", "/api/claude", none, "\x7b\"model\":\"x\"\x7d"⟩
        (.ok 200 "ignored" [])).1.body = "\x7b\"error\":" ++ t) ∧
      (workerFetch ⟨none, none⟩ ⟨"POST", "/api/claude", none, "\x7b\"model\":\"x\"\x7d"⟩
        (.ok 200 "ignored" [])).2 = []) ∧
    ((claudeOnRequestPost ⟨none, none⟩ ⟨"POST", "/api/claude", none, "\x7b\"model\":\"x\"\x7d"⟩
        (.ok 200 "ignored" [])).1.status = 500 ∧
      (∃ t, (claudeOnRequestPost ⟨none, none⟩ ⟨"POST", "/api/claude", none, "\x7b\"model\":\"x\"\x7d"⟩
        (.ok 200 "ignored" [])).1.body = "\x7b\"error\":" ++ t) ∧
      (claudeOnRequestPost ⟨none, none⟩ ⟨"POST", "/api/claude", none, "\x7b\"model\":\"x\"\x7d"⟩
        (.ok 200 "ignored" [])).2 = []) := by
  refine ⟨⟨rfl, rfl, rfl⟩, ?_⟩
  exact (claude_missing_key_500_no_upstream ⟨none, none⟩
    ⟨"POST", "/api/claude", none, "\x7b\"model\":\"x\"\x7d"⟩ (.ok 200 "ignored" []) rfl rfl rfl).imp
    id id

/-- C6: for every GET request to `/proxy` whose query string has no `url`
parameter (`searchParams.get` returns `null`), both handlers return status
exactly 400 and issue no outbound fetch. -/
theorem proxy_missing_url_400_no_fetch (env : Env) (req : Request)
    (oracle : FetchResult) (hpath : req.path = "/proxy") (hmeth : req.method = "GET")
    (hurl : req.urlParam = none) :
    (workerFetch env req oracle).1.status = 400 ∧
    (workerFetch env req oracle).2 = [] ∧
    (proxyOnRequestGet req oracle).1.status = 400 ∧
    (proxyOnRequestGet req oracle).2 = [] := by
  have hw : workerFetch env req oracle =
      (corsResponse "Missing url parameter" 400 [], []) := by
    simp [workerFetch, hpath, hmeth, hurl]
  have hp : proxyOnRequestGet req oracle =
      ({ status := 400, body := "Missing url parameter"
         headers := [("Access-Control-Allow-Origin", "*")] }, []) := by
    simp [proxyOnRequestGet, hurl]
  rw [hw, hp]
  exact ⟨rfl, rfl, rfl, rfl⟩

/-- Closed witness for C6 at a concrete `/proxy` request without a `url`
parameter. -/
theorem proxy_missing_url_400_no_fetch_witness :
    (("/proxy" : String) = "/proxy" ∧ ("GET" : String) = "GET" ∧
      (none : Option String) = none) ∧
    (workerFetch ⟨some "k", none⟩ ⟨"GET", "/proxy", none, ""⟩ (.ok 200 "x" [])).1.status = 400 ∧
    (workerFetch ⟨some "k", none⟩ ⟨"GET", "/proxy", none, ""⟩ (.ok 200 "x" [])).2 = [] ∧
    (proxyOnRequestGet ⟨"GET", "/proxy", none, ""⟩ (.ok 200 "x" [])).1.status = 400 ∧
    (proxyOnRequestGet ⟨"GET", "/proxy", none, ""⟩ (.ok 200 "x" [])).2 = [] := by
  refine ⟨⟨rfl, rfl, rfl⟩, ?_⟩
  exact proxy_missing_url_400_no_fetch ⟨some "k", none⟩ ⟨"GET", "/proxy", none, ""⟩
    (.ok 200 "x" []) rfl rfl rfl

/-- C10: a `/proxy` request whose `url` parameter is present but equal to
the empty string is handled exactly like a missing parameter (JS `!target`
is true for `""`): the whole handler outcome coincides with the
missing-parameter outcome, the status is 400, and no outbound fetch
occurs — in both the combined worker and the Pages function. -/
theorem proxy_empty_url_like_missing (env : Env) (req : Request)
    (oracle : FetchResult) (hpath : req.path = "/proxy") (hmeth : req.method = "GET")
    (hurl : req.urlParam = some "") :
    workerFetch env req oracle = workerFetch env { req with urlParam := none } oracle ∧
    (workerFetch env req oracle).1.status = 400 ∧
    (workerFetch env req oracle).2 = [] ∧
    proxyOnRequestGet req oracle = proxyOnRequestGet { req with urlParam := none } oracle ∧
    (proxyOnRequestGet req oracle).1.status = 400 ∧
    (proxyOnRequestGet req oracle).2 = [] := by
  have hw : workerFetch env req oracle =
      (corsResponse "Missing url parameter" 400 [], []) := by
    simp [workerFetch, hpath, hmeth, hurl]
  have hw2 : workerFetch env { req with urlParam := none } oracle =
      (corsResponse "Missing url parameter" 400 [], []) := by
    simp [workerFetch, hpath, hmeth]
  have hp : proxyOnRequestGet req oracle =
      ({ status := 400, body := "Missing url parameter"
         headers := [("Access-Control-Allow-Origin", "*")] }, []) := by
    simp [proxyOnRequestGet, hurl]
  have hp2 : proxyOnRequestGet { req with urlParam := none } oracle =
      ({ status := 400, body := "Missing url parameter"
         headers := [("Access-Control-Allow-Origin", "*")] }, []) := by
    simp [proxyOnRequestGet]
  rw [hw, hw2, hp, hp2]
  exact ⟨rfl, rfl, rfl, rfl, rfl, rfl⟩

/-- Closed witness for C10 at the concrete request `/proxy?url=`. -/
theorem proxy_empty_url_like_missing_witness :
    (("/proxy" : String) = "/proxy" ∧ ("GET" : String) = "GET" ∧
      (some "" : Option String) = some "") ∧
    workerFetch ⟨some "k", none⟩ ⟨"GET", "/proxy", some "", ""⟩ (.ok 200 "x" []) =
      workerFetch ⟨some "k", none⟩ ⟨"GET", "/proxy", none, ""⟩ (.ok 200 "x" []) ∧
    (workerFetch ⟨some "k", none⟩ ⟨"GET", "/proxy", some "", ""⟩ (.ok 200 "x" [])).1.status = 400 ∧
    (workerFetch ⟨some "k", none⟩ ⟨"GET", "/proxy", some "", ""⟩ (.ok 200 "x" [])).2 = [] ∧
    proxyOnRequestGet ⟨"GET", "/proxy", some "", ""⟩ (.ok 200 "x" []) =
      proxyOnRequestGet ⟨"GET", "/proxy", none, ""⟩ (.ok 200 "x" []) ∧
    (proxyOnRequestGet ⟨"GET", "/proxy", some "", ""⟩ (.ok 200 "x" [])).1.status = 400 ∧
    (proxyOnRequestGet ⟨"GET", "/proxy", some "", ""⟩ (.ok 200 "x" [])).2 = [] := by
  refine ⟨⟨rfl, rfl, rfl⟩, ?_⟩
  exact proxy_empty_url_like_missing ⟨some "k", none⟩ ⟨"GET", "/proxy", some "", ""⟩
    (.ok 200 "x" []) rfl rfl rfl

/-- C1: for every `/api/claude` POST with a configured (non-empty)
credential, the single outbound request to the upstream carries the
credential as the `x-api-key` header, and the response sent back to the
caller is identical for any two configured credentials under the same
upstream outcome — the noninterference rendering of "the credential is
never present in any response": the response does not depend on the
credential, so the handler itself never places it (or any information about
it) in a success or error response.  Proved for both the combined worker
and the Pages function. -/
theorem claude_key_on_outbound_never_in_response (assets : Option Response)
    (req : Request) (oracle : FetchResult) (k kq : String)
    (hk : k ≠ "") (hkq : kq ≠ "")
    (hpath : req.path = "/api/claude") (hmeth : req.method = "POST") :
    ((workerFetch ⟨some k, assets⟩ req oracle).2 = [anthropicOutbound k req.body] ∧
      hget (anthropicOutbound k req.body).headers "x-api-key" = some k ∧
      (workerFetch ⟨some k, assets⟩ req oracle).1 =
        (workerFetch ⟨some kq, assets⟩ req oracle).1) ∧
    ((claudeOnRequestPost ⟨some k, assets⟩ req oracle).2 = [anthropicOutbound k req.body] ∧
      (claudeOnRequestPost ⟨some k, assets⟩ req oracle).1 =
        (claudeOnRequestPost ⟨some kq, assets⟩ req oracle).1) := by
  have hx : hget (anthropicOutbound k req.body).headers "x-api-key" = some k := rfl
  cases oracle with
  | ok status body hs =>
    refine ⟨⟨?_, hx, ?_⟩, ?_, ?_⟩ <;>
      simp [workerFetch, claudeOnRequestPost, hpath, hmeth, hk, hkq]
  | err msg =>
    refine ⟨⟨?_, hx, ?_⟩, ?_, ?_⟩ <;>
      simp [workerFetch, claudeOnRequestPost, hpath, hmeth, hk, hkq]

/-- Closed witness for C1: two concrete keys, a concrete request and a
concrete upstream outcome. -/
theorem claude_key_on_outbound_never_in_response_witness :
    (("sk-live-1" : String) ≠ "" ∧ ("sk-live-2" : String) ≠ "") ∧
    ((workerFetch ⟨some "sk-live-1", none⟩
        ⟨"POST", "/api/claude", none, "\x7b\"model\":\"x\"\x7d"⟩ (.ok 200 "resp" [])).2 =
      [anthropicOutbound "sk-live-1" "\x7b\"model\":\"x\"\x7d"] ∧
      hget (anthropicOutbound "sk-live-1" "\x7b\"model\":\"x\"\x7d").headers "x-api-key" =
        some "sk-live-1" ∧
      (workerFetch ⟨some "sk-live-1", none⟩
        ⟨"POST", "/api/claude", none, "\x7b\"model\":\"x\"\x7d"⟩ (.ok 200 "resp" [])).1 =
      (workerFetch ⟨some "sk-live-2", none⟩
        ⟨"POST", "/api/claude", none, "\x7b\"model\":\"x\"\x7d"⟩ (.ok 200 "resp" [])).1) ∧
    ((claudeOnRequestPost ⟨some "sk-live-1", none⟩
        ⟨"POST", "/api/claude", none, "\x7b\"model\":\"x\"\x7d"⟩ (.ok 200 "resp" [])).2 =
      [anthropicOutbound "sk-live-1" "\x7b\"model\":\"x\"\x7d"] ∧
      (claudeOnRequestPost ⟨some "sk-live-1", none⟩
        ⟨"POST", "/api/claude", none, "\x7b\"model\":\"x\"\x7d"⟩ (.ok 200 "resp" [])).1 =
      (claudeOnRequestPost ⟨some "sk-live-2", none⟩
        ⟨"POST", "/api/claude", none, "\x7b\"model\":\"x\"\x7d"⟩ (.ok 200 "resp" [])).1) := by
  refine ⟨⟨by decide, by decide⟩, ?_⟩
  exact claude_key_on_outbound_never_in_response none
    ⟨"POST", "/api/claude", none, "\x7b\"model\":\"x\"\x7d"⟩ (.ok 200 "resp" [])
    "sk-live-1" "sk-live-2" (by decide) (by decide) rfl rfl

/-- C4: for every `/api/claude` POST with a configured credential whose
upstream call succeeds, both handlers return the upstream status and body
unchanged, with `Content-Type: application/json` and
`Access-Control-Allow-Origin: *` on the response (the Pages function's
response headers are exactly those two). -/
theorem claude_upstream_passthrough (assets : Option Response) (req : Request)
    (k : String) (status : Nat) (body : String) (hs : Headers)
    (hk : k ≠ "") (hpath : req.path = "/api/claude") (hmeth : req.method = "POST") :
    ((workerFetch ⟨some k, assets⟩ req (.ok status body hs)).1.status = status ∧
      (workerFetch ⟨some k, assets⟩ req (.ok status body hs)).1.body = body ∧
      hget (workerFetch ⟨some k, assets⟩ req (.ok status body hs)).1.headers
        "Content-Type" = some "application/json" ∧
      hget (workerFetch ⟨some k, assets⟩ req (.ok status body hs)).1.headers
        "Access-Control-Allow-Origin" = some "*") ∧
    ((claudeOnRequestPost ⟨some k, assets⟩ req (.ok status body hs)).1.status = status ∧
      (claudeOnRequestPost ⟨some k, assets⟩ req (.ok status body hs)).1.body = body ∧
      (claudeOnRequestPost ⟨some k, assets⟩ req (.ok status body hs)).1.headers =
        [("Content-Type", "application/json"), ("Access-Control-Allow-Origin", "*")]) := by
  have hw : workerFetch ⟨some k, assets⟩ req (.ok status body hs) =
      (corsResponse body status [("Content-Type", "application/json")],
       [anthropicOutbound k req.body]) := by
    simp [workerFetch, hpath, hmeth, hk]
  have hc : claudeOnRequestPost ⟨some k, assets⟩ req (.ok status body hs) =
      ({ status := status, body := body
         headers := [("Content-Type", "application/json"),
                     ("Access-Control-Allow-Origin", "*")] },
       [anthropicOutbound k req.body]) := by
    simp [claudeOnRequestPost, hk]
  rw [hw, hc]
  refine ⟨⟨rfl, rfl, ?_, ?_⟩, rfl, rfl, rfl⟩
  · show hget (setAll [("Content-Type", "application/json")] CORS_HEADERS)
      "Content-Type" = some "application/json"
    rw [hget_cors_other _ _ (by decide) (by decide) (by decide) (by decide)]
    rfl
  · exact hget_cors_acao _

/-- Closed witness for C4: the scenario of the spec — upstream returns 200
with body `\x7b"id":"msg_1"\x7d`, and both proxies return 200 with the same
body. -/
theorem claude_upstream_passthrough_witness :
    (("sk-test" : String) ≠ "") ∧
    ((workerFetch ⟨some "sk-test", none⟩
        ⟨"POST", "/api/claude", none, "\x7b\"model\":\"x\"\x7d"⟩
        (.ok 200 "\x7b\"id\":\"msg_1\"\x7d" [])).1.status = 200 ∧
      (workerFetch ⟨some "sk-test", none⟩
        ⟨"POST", "/api/claude", none, "\x7b\"model\":\"x\"\x7d"⟩
        (.ok 200 "\x7b\"id\":\"msg_1\"\x7d" [])).1.body = "\x7b\"id\":\"msg_1\"\x7d" ∧
      hget (workerFetch ⟨some "sk-test", none⟩
        ⟨"POST", "/api/claude", none, "\x7b\"model\":\"x\"\x7d"⟩
        (.ok 200 "\x7b\"id\":\"msg_1\"\x7d" [])).1.headers "Content-Type" =
        some "application/json" ∧
      hget (workerFetch ⟨some "sk-test", none⟩
        ⟨"POST", "/api/claude", none, "\x7b\"model\":\"x\"\x7d"⟩
        (.ok 200 "\x7b\"id\":\"msg_1\"\x7d" [])).1.headers "Access-Control-Allow-Origin" =
        some "*") ∧
    ((claudeOnRequestPost ⟨some "sk-test", none⟩
        ⟨"POST", "/api/claude", none, "\x7b\"model\":\"x\"\x7d"⟩
        (.ok 200 "\x7b\"id\":\"msg_1\"\x7d" [])).1.status = 200 ∧
      (claudeOnRequestPost ⟨some "sk-test", none⟩
        ⟨"POST", "/api/claude", none, "\x7b\"model\":\"x\"\x7d"⟩
        (.ok 200 "\x7b\"id\":\"msg_1\"\x7d" [])).1.body = "\x7b\"id\":\"msg_1\"\x7d" ∧
      (claudeOnRequestPost ⟨some "sk-test", none⟩
        ⟨"POST", "/api/claude", none, "\x7b\"model\":\"x\"\x7d"⟩
        (.ok 200 "\x7b\"id\":\"msg_1\"\x7d" [])).1.headers =
        [("Content-Type", "application/json"), ("Access-Control-Allow-Origin", "*")]) := by
  refine ⟨by decide, ?_⟩
  exact claude_upstream_passthrough none
    ⟨"POST", "/api/claude", none, "\x7b\"model\":\"x\"\x7d"⟩ "sk-test" 200
    "\x7b\"id\":\"msg_1\"\x7d" [] (by decide) rfl rfl

/-- C3: for every `/proxy` request whose outbound fetch of the target URL
succeeds, the relayed response carries the target's status code and body,
its headers with `Content-Security-Policy` and `X-Frame-Options` removed
and `Access-Control-Allow-Origin: *` added; every other header name not
managed by the CORS plumbing is relayed unchanged.  Proved for both the
combined worker and the Pages function. -/
theorem proxy_success_relay (env : Env) (req : Request) (target : String)
    (status : Nat) (body : String) (hs : Headers)
    (hpath : req.path = "/proxy") (hmeth : req.method = "GET")
    (hurl : req.urlParam = some target) (hne : target ≠ "") :
    ((workerFetch env req (.ok status body hs)).1.status = status ∧
      (workerFetch env req (.ok status body hs)).1.body = body ∧
      hget (workerFetch env req (.ok status body hs)).1.headers
        "Content-Security-Policy" = none ∧
      hget (workerFetch env req (.ok status body hs)).1.headers
        "X-Frame-Options" = none ∧
      hget (workerFetch env req (.ok status body hs)).1.headers
        "Access-Control-Allow-Origin" = some "*" ∧
      (workerFetch env req (.ok status body hs)).2 = [proxyOutbound target] ∧
      (∀ kq, hnorm kq ≠ hnorm "Access-Control-Allow-Origin" →
        hnorm kq ≠ hnorm "Access-Control-Allow-Methods" →
        hnorm kq ≠ hnorm "Access-Control-Allow-Headers" →
        hnorm kq ≠ hnorm "Access-Control-Max-Age" →
        hnorm kq ≠ hnorm "Content-Security-Policy" →
        hnorm kq ≠ hnorm "X-Frame-Options" →
        hget (workerFetch env req (.ok status body hs)).1.headers kq = hget hs kq)) ∧
    ((proxyOnRequestGet req (.ok status body hs)).1.status = status ∧
      (proxyOnRequestGet req (.ok status body hs)).1.body = body ∧
      hget (proxyOnRequestGet req (.ok status body hs)).1.headers
        "Content-Security-Policy" = none ∧
      hget (proxyOnRequestGet req (.ok status body hs)).1.headers
        "X-Frame-Options" = none ∧
      hget (proxyOnRequestGet req (.ok status body hs)).1.headers
        "Access-Control-Allow-Origin" = some "*" ∧
      (proxyOnRequestGet req (.ok status body hs)).2 = [proxyOutbound target] ∧
      (∀ kq, hnorm kq ≠ hnorm "Access-Control-Allow-Origin" →
        hnorm kq ≠ hnorm "Content-Security-Policy" →
        hnorm kq ≠ hnorm "X-Frame-Options" →
        hget (proxyOnRequestGet req (.ok status body hs)).1.headers kq = hget hs kq)) := by
  have hw : workerFetch env req (.ok status body hs) =
      (corsResponse body status
        (hdelete (hdelete hs "Content-Security-Policy") "X-Frame-Options"),
       [proxyOutbound target]) := by
    simp [workerFetch, hpath, hmeth, hurl, hne]
  have hp : proxyOnRequestGet req (.ok status body hs) =
      ({ status := status, body := body
         headers := hdelete (hdelete (hset hs "Access-Control-Allow-Origin" "*")
           "Content-Security-Policy") "X-Frame-Options" },
       [proxyOutbound target]) := by
    simp [proxyOnRequestGet, hurl, hne]
  rw [hw, hp]
  refine ⟨⟨rfl, rfl, ?_, ?_, ?_, rfl, ?_⟩, rfl, rfl, ?_, ?_, ?_, rfl, ?_⟩
  · show hget (setAll _ CORS_HEADERS) _ = none
    rw [hget_cors_other _ _ (by decide) (by decide) (by decide) (by decide)]
    rw [hget_hdelete_ne _ _ _ (by decide)]
    exact hget_hdelete_self hs "Content-Security-Policy"
  · show hget (setAll _ CORS_HEADERS) _ = none
    rw [hget_cors_other _ _ (by decide) (by decide) (by decide) (by decide)]
    exact hget_hdelete_self _ "X-Frame-Options"
  · exact hget_cors_acao _
  · intro kq h1 h2 h3 h4 h5 h6
    show hget (setAll _ CORS_HEADERS) kq = hget hs kq
    rw [hget_cors_other _ _ h1 h2 h3 h4]
    rw [hget_hdelete_ne _ _ _ h6, hget_hdelete_ne _ _ _ h5]
  · rw [hget_hdelete_ne _ _ _ (by decide)]
    exact hget_hdelete_self _ "Content-Security-Policy"
  · exact hget_hdelete_self _ "X-Frame-Options"
  · rw [hget_hdelete_ne _ _ _ (by decide), hget_hdelete_ne _ _ _ (by decide)]
    exact hget_hset_self hs "Access-Control-Allow-Origin" "*"
  · intro kq h1 h5 h6
    rw [hget_hdelete_ne _ _ _ h6, hget_hdelete_ne _ _ _ h5, hget_hset_ne _ _ _ _ h1]

/-- Closed witness for C3: a concrete target response carrying both
security headers and a content type; the relay keeps status, body and the
content type, drops the two security headers, and adds the permissive
cross-origin header (both deployments). -/
theorem proxy_success_relay_witness :
    (("https://example.com/a" : String) ≠ "") ∧
    ((workerFetch ⟨some "k", none⟩ ⟨"GET", "/proxy", some "https://example.com/a", ""⟩
        (.ok 200 "<html>" [("Content-Type", "text/html"),
          ("Content-Security-Policy", "default-src"),
          ("X-Frame-Options", "DENY")])).1.status = 200 ∧
      hget (workerFetch ⟨some "k", none⟩ ⟨"GET", "/proxy", some "https://example.com/a", ""⟩
        (.ok 200 "<html>" [("Content-Type", "text/html"),
          ("Content-Security-Policy", "default-src"),
          ("X-Frame-Options", "DENY")])).1.headers "Content-Security-Policy" = none ∧
      hget (workerFetch ⟨some "k", none⟩ ⟨"GET", "/proxy", some "https://example.com/a", ""⟩
        (.ok 200 "<html>" [("Content-Type", "text/html"),
          ("Content-Security-Policy", "default-src"),
          ("X-Frame-Options", "DENY")])).1.headers "X-Frame-Options" = none ∧
      hget (workerFetch ⟨some "k", none⟩ ⟨"GET", "/proxy", some "https://example.com/a", ""⟩
        (.ok 200 "<html>" [("Content-Type", "text/html"),
          ("Content-Security-Policy", "default-src"),
          ("X-Frame-Options", "DENY")])).1.headers "Access-Control-Allow-Origin" = some "*" ∧
      hget (workerFetch ⟨some "k", none⟩ ⟨"GET", "/proxy", some "https://example.com/a", ""⟩
        (.ok 200 "<html>" [("Content-Type", "text/html"),
          ("Content-Security-Policy", "default-src"),
          ("X-Frame-Options", "DENY")])).1.headers "Content-Type" =
        hget [("Content-Type", "text/html"), ("Content-Security-Policy", "default-src"),
          ("X-Frame-Options", "DENY")] "Content-Type") ∧
    ((proxyOnRequestGet ⟨"GET", "/proxy", some "https://example.com/a", ""⟩
        (.ok 200 "<html>" [("Content-Type", "text/html"),
          ("Content-Security-Policy", "default-src"),
          ("X-Frame-Options", "DENY")])).1.status = 200 ∧
      hget (proxyOnRequestGet ⟨"GET", "/proxy", some "https://example.com/a", ""⟩
        (.ok 200 "<html>" [("Content-Type", "text/html"),
          ("Content-Security-Policy", "default-src"),
          ("X-Frame-Options", "DENY")])).1.headers "Content-Security-Policy" = none ∧
      hget (proxyOnRequestGet ⟨"GET", "/proxy", some "https://example.com/a", ""⟩
        (.ok 200 "<html>" [("Content-Type", "text/html"),
          ("Content-Security-Policy", "default-src"),
          ("X-Frame-Options", "DENY")])).1.headers "X-Frame-Options" = none ∧
      hget (proxyOnRequestGet ⟨"GET", "/proxy", some "https://example.com/a", ""⟩
        (.ok 200 "<html>" [("Content-Type", "text/html"),
          ("Content-Security-Policy", "default-src"),
          ("X-Frame-Options", "DENY")])).1.headers "Access-Control-Allow-Origin" = some "*") := by
  have h := proxy_success_relay ⟨some "k", none⟩
    ⟨"GET", "/proxy", some "https://example.com/a", ""⟩ "https://example.com/a" 200 "<html>"
    [("Content-Type", "text/html"), ("Content-Security-Policy", "default-src"),
     ("X-Frame-Options", "DENY")] rfl rfl rfl (by decide)
  refine ⟨by decide, ⟨h.1.1, h.1.2.2.1, h.1.2.2.2.1, h.1.2.2.2.2.1, ?_⟩,
    h.2.1, h.2.2.2.1, h.2.2.2.2.1, h.2.2.2.2.2.1⟩
  exact h.1.2.2.2.2.2.2 "Content-Type" (by decide) (by decide) (by decide) (by decide)
    (by decide) (by decide)

/-- C5: whenever the outbound fetch raises an exception, every handler that
attempted it catches the exception and returns status exactly 502 with the
underlying error message in the body: the `/api/claude` handlers return the
JSON serialisation of an object whose `error` field is the message, and the
`/proxy` handlers return a body that is literally `Proxy error: ` followed
by the message (so it starts with `Proxy error:`).  Stated for all four
handlers: the combined worker's two routes and the two Pages functions. -/
theorem outbound_exception_502 (env : Env) (req : Request) (msg : String) :
    (req.path = "/api/claude" → req.method = "POST" →
      env.ANTHROPIC_API_KEY.getD "" ≠ "" →
      (workerFetch env req (.err msg)).1.status = 502 ∧
      (workerFetch env req (.err msg)).1.body = jsonErrorBody msg) ∧
    (req.path = "/proxy" → req.method = "GET" → req.urlParam.getD "" ≠ "" →
      (workerFetch env req (.err msg)).1.status = 502 ∧
      (workerFetch env req (.err msg)).1.body = "Proxy error: " ++ msg ∧
      (∃ t, (workerFetch env req (.err msg)).1.body = "Proxy error:" ++ t)) ∧
    (env.ANTHROPIC_API_KEY.getD "" ≠ "" →
      (claudeOnRequestPost env req (.err msg)).1.status = 502 ∧
      (claudeOnRequestPost env req (.err msg)).1.body = jsonErrorBody msg) ∧
    (req.urlParam.getD "" ≠ "" →
      (proxyOnRequestGet req (.err msg)).1.status = 502 ∧
      (proxyOnRequestGet req (.err msg)).1.body = "Proxy error: " ++ msg ∧
      (∃ t, (proxyOnRequestGet req (.err msg)).1.body = "Proxy error:" ++ t)) := by
  have hlit : ("Proxy error:" ++ " " : String) = "Proxy error: " := by decide
  have hsplit : ("Proxy error: " ++ msg : String) = "Proxy error:" ++ (" " ++ msg) := by
    rw [← String.append_assoc, hlit]
  refine ⟨?_, ?_, ?_, ?_⟩
  · intro hpath hmeth hk
    have hw : workerFetch env req (.err msg) =
        (corsResponse (jsonErrorBody msg) 502 [("Content-Type", "application/json")],
         [anthropicOutbound (env.ANTHROPIC_API_KEY.getD "") req.body]) := by
      simp [workerFetch, hpath, hmeth, hk]
    rw [hw]
    exact ⟨rfl, rfl⟩
  · intro hpath hmeth hurl
    have hw : workerFetch env req (.err msg) =
        (corsResponse ("Proxy error: " ++ msg) 502 [],
         [proxyOutbound (req.urlParam.getD "")]) := by
      simp [workerFetch, hpath, hmeth, hurl]
    rw [hw]
    exact ⟨rfl, rfl, ⟨" " ++ msg, hsplit⟩⟩
  · intro hk
    have hc : claudeOnRequestPost env req (.err msg) =
        ({ status := 502, body := jsonErrorBody msg
           headers := [("Content-Type", "application/json"),
                       ("Access-Control-Allow-Origin", "*")] },
         [anthropicOutbound (env.ANTHROPIC_API_KEY.getD "") req.body]) := by
      simp [claudeOnRequestPost, hk]
    rw [hc]
    exact ⟨rfl, rfl⟩
  · intro hurl
    have hp : proxyOnRequestGet req (.err msg) =
        ({ status := 502, body := "Proxy error: " ++ msg
           headers := [("Access-Control-Allow-Origin", "*")] },
         [proxyOutbound (req.urlParam.getD "")]) := by
      simp [proxyOnRequestGet, hurl]
    rw [hp]
    exact ⟨rfl, rfl, ⟨" " ++ msg, hsplit⟩⟩

/-- Closed witness for C5: the spec scenario — an unreachable target for
`/proxy` yields 502 with a `Proxy error:` body, and an upstream failure for
`/api/claude` yields 502 with the message inside the JSON error body
(exercising all four conjuncts at concrete requests). -/
theorem outbound_exception_502_witness :
    ((workerFetch ⟨some "k", none⟩ ⟨"POST", "/api/claude", none, "b"⟩
        (.err "connect timeout")).1.status = 502 ∧
      (workerFetch ⟨some "k", none⟩ ⟨"POST", "/api/claude", none, "b"⟩
        (.err "connect timeout")).1.body = jsonErrorBody "connect timeout") ∧
    ((workerFetch ⟨some "k", none⟩ ⟨"GET", "/proxy", some "https://example.com/a", ""⟩
        (.err "connect timeout")).1.status = 502 ∧
      (∃ t, (workerFetch ⟨some "k", none⟩ ⟨"GET", "/proxy", some "https://example.com/a", ""⟩
        (.err "connect timeout")).1.body = "Proxy error:" ++ t)) ∧
    ((claudeOnRequestPost ⟨some "k", none⟩ ⟨"POST", "/api/claude", none, "b"⟩
        (.err "connect timeout")).1.status = 502 ∧
      (claudeOnRequestPost ⟨some "k", none⟩ ⟨"POST", "/api/claude", none, "b"⟩
        (.err "connect timeout")).1.body = jsonErrorBody "connect timeout") ∧
    ((proxyOnRequestGet ⟨"GET", "/proxy", some "https://example.com/a", ""⟩
        (.err "connect timeout")).1.status = 502 ∧
      (∃ t, (proxyOnRequestGet ⟨"GET", "/proxy", some "https://example.com/a", ""⟩
        (.err "connect timeout")).1.body = "Proxy error:" ++ t)) := by
  have hA := outbound_exception_502 ⟨some "k", none⟩ ⟨"POST", "/api/claude", none, "b"⟩
    "connect timeout"
  have hP := outbound_exception_502 ⟨some "k", none⟩
    ⟨"GET", "/proxy", some "https://example.com/a", ""⟩ "connect timeout"
  have h1 := hA.1 rfl rfl (by decide)
  have h2 := hP.2.1 rfl rfl (by decide)
  have h3 := hA.2.2.1 (by decide)
  have h4 := hP.2.2.2 (by decide)
  exact ⟨⟨h1.1, h1.2⟩, ⟨h2.1, h2.2.2⟩, ⟨h3.1, h3.2⟩, ⟨h4.1, h4.2.2⟩⟩

/-- Counterexample to C7 as stated: in the combined worker deployment, the
concrete request `OPTIONS /proxy` receives an
`Access-Control-Allow-Methods` header reading `GET, POST, OPTIONS` — not
exactly `GET, OPTIONS` (status 204 and empty body do hold). -/
theorem options_proxy_methods_counterexample :
    hget (workerFetch ⟨none, none⟩ ⟨"OPTIONS", "/proxy", none, ""⟩ (.err "x")).1.headers
        "Access-Control-Allow-Methods" = some "GET, POST, OPTIONS" ∧
    hget (workerFetch ⟨none, none⟩ ⟨"OPTIONS", "/proxy", none, ""⟩ (.err "x")).1.headers
        "Access-Control-Allow-Methods" ≠ some "GET, OPTIONS" ∧
    (workerFetch ⟨none, none⟩ ⟨"OPTIONS", "/proxy", none, ""⟩ (.err "x")).1.status = 204 ∧
    (workerFetch ⟨none, none⟩ ⟨"OPTIONS", "/proxy", none, ""⟩ (.err "x")).1.body = "" := by
  decide

/-- C7 amended: every OPTIONS request to either endpoint receives status
exactly 204 with an empty body; the allowed-methods header depends on the
deployment: the Pages `/proxy` OPTIONS responder advertises exactly
`GET, OPTIONS`, while the combined worker's preflight responder advertises
`GET, POST, OPTIONS` on every path (`/proxy` included). -/
theorem options_preflight_204 (env : Env) (req : Request) (oracle : FetchResult)
    (hmeth : req.method = "OPTIONS") :
    (workerFetch env req oracle).1.status = 204 ∧
    (workerFetch env req oracle).1.body = "" ∧
    hget (workerFetch env req oracle).1.headers "Access-Control-Allow-Methods" =
      some "GET, POST, OPTIONS" ∧
    proxyOnRequestOptionsResp.status = 204 ∧
    proxyOnRequestOptionsResp.body = "" ∧
    hget proxyOnRequestOptionsResp.headers "Access-Control-Allow-Methods" =
      some "GET, OPTIONS" ∧
    claudeOnRequestOptionsResp.status = 204 ∧
    claudeOnRequestOptionsResp.body = "" := by
  have hw : workerFetch env req oracle = (corsResponse "" 204 [], []) := by
    simp [workerFetch, hmeth]
  rw [hw]
  exact ⟨rfl, rfl, hget_cors_methods [], rfl, rfl, rfl, rfl, rfl⟩

/-- Closed witness for the amended C7 at the concrete request
`OPTIONS /proxy`. -/
theorem options_preflight_204_witness :
    (("OPTIONS" : String) = "OPTIONS") ∧
    (workerFetch ⟨none, none⟩ ⟨"OPTIONS", "/proxy", none, ""⟩ (.ok 200 "x" [])).1.status = 204 ∧
    (workerFetch ⟨none, none⟩ ⟨"OPTIONS", "/proxy", none, ""⟩ (.ok 200 "x" [])).1.body = "" ∧
    hget (workerFetch ⟨none, none⟩ ⟨"OPTIONS", "/proxy", none, ""⟩
        (.ok 200 "x" [])).1.headers "Access-Control-Allow-Methods" =
      some "GET, POST, OPTIONS" ∧
    proxyOnRequestOptionsResp.status = 204 ∧
    proxyOnRequestOptionsResp.body = "" ∧
    hget proxyOnRequestOptionsResp.headers "Access-Control-Allow-Methods" =
      some "GET, OPTIONS" ∧
    claudeOnRequestOptionsResp.status = 204 ∧
    claudeOnRequestOptionsResp.body = "" := by
  refine ⟨rfl, ?_⟩
  exact options_preflight_204 ⟨none, none⟩ ⟨"OPTIONS", "/proxy", none, ""⟩
    (.ok 200 "x" []) rfl

namespace SW

/-- C8: the service worker writes a cache entry only for status-ok,
same-origin responses obtained for a GET request on a non-API, non-proxy
path: any cache write produced by a fetch interception forces the request
to be GET, same-hostname, same-origin, off the `/api/` and `/proxy` paths,
and the network outcome to be a success whose status is in 200–299 — the
written entry being exactly that response keyed by the request URL.  The
conclusion also covers the install listener: any entry `cache.addAll(['/'])`
writes comes from an ok root fetch. -/
theorem cache_write_only_ok_sameorigin_get (cfg : SWConfig)
    (cache : List (String × Response)) (req : SWRequest) (net : FetchResult)
    (w : String × Response) (hw : w ∈ (swFetch cfg cache req net).cacheWrites) :
    req.method = "GET" ∧ req.hostname = cfg.hostname ∧ req.origin = cfg.origin ∧
    req.pathname.startsWith "/api/" = false ∧ req.pathname ≠ "/proxy" ∧
    (∃ status body hs, net = .ok status body hs ∧ statusOk status = true ∧
      w = (req.url, { status := status, body := body, headers := hs })) ∧
    (∀ root wi, wi ∈ swInstall root →
      ∃ status body hs, root = .ok status body hs ∧ statusOk status = true ∧
        wi = ("/", { status := status, body := body, headers := hs })) := by
  have hinstall : ∀ root wi, wi ∈ swInstall root →
      ∃ status body hs, root = .ok status body hs ∧ statusOk status = true ∧
        wi = ("/", { status := status, body := body, headers := hs }) := by
    intro root wi hwi
    cases root with
    | ok status body hs =>
      by_cases hok : statusOk status = true
      · simp [swInstall, hok] at hwi
        exact ⟨status, body, hs, rfl, hok, hwi⟩
      · simp [swInstall, hok] at hwi
    | err m => simp [swInstall] at hwi
  by_cases hp : passBack req cfg = true
  · simp [swFetch, hp] at hw
  · have hps : passBack req cfg = false := by
      revert hp
      cases passBack req cfg <;> simp
    have hcond := hps
    simp only [passBack, Bool.or_eq_false_iff, bne_eq_false_iff_eq, beq_eq_false_iff_ne,
      ne_eq] at hcond
    obtain ⟨⟨⟨hapi, hproxy⟩, hhost⟩, hmeth⟩ := hcond
    refine ⟨hmeth, hhost, ?_, hapi, hproxy, ?_, hinstall⟩
    all_goals
      cases hlk : lookupCache cache req.url with
      | some r => simp [swFetch, hps, hlk] at hw
      | none =>
        cases net with
        | ok status body hs =>
          by_cases hok : (statusOk status && (req.origin == cfg.origin)) = true
          · have hAnd := hok
            rw [Bool.and_eq_true, beq_iff_eq] at hAnd
            simp [swFetch, hps, hlk, hok] at hw
            first
              | exact hAnd.2
              | exact ⟨status, body, hs, rfl, hAnd.1, hw⟩
          · simp [swFetch, hps, hlk, hok] at hw
        | err m => simp [swFetch, hps, hlk] at hw

/-- Closed witness for C8: a concrete same-origin GET interception that
does write, and a concrete ok install fetch. -/
theorem cache_write_only_ok_sameorigin_get_witness :
    (("https://h/a", ({ status := 200, body := "x", headers := [] } : Response)) ∈
      (swFetch ⟨"h", "https://h"⟩ [] ⟨"GET", "https://h/a", "/a", "h", "https://h"⟩
        (.ok 200 "x" [])).cacheWrites) ∧
    (⟨"GET", "https://h/a", "/a", "h", "https://h"⟩ : SWRequest).method = "GET" ∧
    (∃ status body hs, (FetchResult.ok 200 "x" ([] : Headers)) = .ok status body hs ∧
      statusOk status = true ∧
      ("https://h/a", ({ status := 200, body := "x", headers := [] } : Response)) =
        ("https://h/a", { status := status, body := body, headers := hs })) ∧
    (∃ status body hs, (FetchResult.ok 201 "root" ([] : Headers)) = .ok status body hs ∧
      statusOk status = true ∧
      ("/", ({ status := 201, body := "root", headers := [] } : Response)) =
        ("/", { status := status, body := body, headers := hs })) := by
  have h := cache_write_only_ok_sameorigin_get ⟨"h", "https://h"⟩ []
    ⟨"GET", "https://h/a", "/a", "h", "https://h"⟩ (.ok 200 "x" [])
    ("https://h/a", { status := 200, body := "x", headers := [] }) (by decide)
  exact ⟨by decide, h.1, h.2.2.2.2.2.1,
    h.2.2.2.2.2.2 (.ok 201 "root" []) ("/", { status := 201, body := "root", headers := [] })
      (by decide)⟩

/-- C9: for every intercepted fetch (GET, same hostname, not an `/api/` or
`/proxy` path): on a cache hit the worker responds with the cached response
and issues no network request; on a cache miss where the network request
fails, it responds with whatever the cache holds for the root document
`/`. -/
theorem cache_hit_no_network_and_offline_root_fallback (cfg : SWConfig)
    (cache : List (String × Response)) (req : SWRequest) (net : FetchResult)
    (hpass : passBack req cfg = false) :
    (∀ r, lookupCache cache req.url = some r →
      (swFetch cfg cache req net).response = some r ∧
      (swFetch cfg cache req net).networkRequested = false) ∧
    (∀ msg, lookupCache cache req.url = none → net = .err msg →
      (swFetch cfg cache req net).response = lookupCache cache "/") := by
  constructor
  · intro r hr
    constructor <;> simp [swFetch, hpass, hr]
  · intro msg hnone hnet
    subst hnet
    simp [swFetch, hpass, hnone]

/-- Closed witness for C9: a two-entry cache; a hit on `/a` is served from
cache without network, and a miss on `/b` with the network down falls back
to the cached root document. -/
theorem cache_hit_no_network_and_offline_root_fallback_witness :
    ((swFetch ⟨"h", "https://h"⟩
        [("https://h/a", { status := 200, body := "cached", headers := [] }),
         ("/", { status := 200, body := "root", headers := [] })]
        ⟨"GET", "https://h/a", "/a", "h", "https://h"⟩ (.ok 200 "fresh" [])).response =
      some { status := 200, body := "cached", headers := [] } ∧
      (swFetch ⟨"h", "https://h"⟩
        [("https://h/a", { status := 200, body := "cached", headers := [] }),
         ("/", { status := 200, body := "root", headers := [] })]
        ⟨"GET", "https://h/a", "/a", "h", "https://h"⟩
        (.ok 200 "fresh" [])).networkRequested = false) ∧
    (swFetch ⟨"h", "https://h"⟩
        [("https://h/a", { status := 200, body := "cached", headers := [] }),
         ("/", { status := 200, body := "root", headers := [] })]
        ⟨"GET", "https://h/b", "/b", "h", "https://h"⟩ (.err "offline")).response =
      lookupCache
        [("https://h/a", { status := 200, body := "cached", headers := [] }),
         ("/", { status := 200, body := "root", headers := [] })] "/" := by
  refine ⟨?_, ?_⟩
  · exact (cache_hit_no_network_and_offline_root_fallback ⟨"h", "https://h"⟩
      [("https://h/a", { status := 200, body := "cached", headers := [] }),
       ("/", { status := 200, body := "root", headers := [] })]
      ⟨"GET", "https://h/a", "/a", "h", "https://h"⟩ (.ok 200 "fresh" []) (by decide)).1
      { status := 200, body := "cached", headers := [] } (by decide)
  · exact (cache_hit_no_network_and_offline_root_fallback ⟨"h", "https://h"⟩
      [("https://h/a", { status := 200, body := "cached", headers := [] }),
       ("/", { status := 200, body := "root", headers := [] })]
      ⟨"GET", "https://h/b", "/b", "h", "https://h"⟩ (.err "offline") (by decide)).2
      "offline" (by decide) rfl

end SW

end AtHere
